import Mathlib

/-!
Verification of the authenticated API client (token-refresh wrapper) of the
Propo_May repository.

The code under study is the axios instance built in the frontend service
module: a request interceptor that attaches `Authorization: Bearer <token>`
from the current Supabase session, and a response interceptor that, on a 401
response whose request has not yet been retried, sets the request's `_retry`
flag, calls `supabase.auth.refreshSession()`, and either resends the original
request (refresh succeeded) or redirects to `/login` and rejects with the
original error (refresh failed or threw).

The embedding below transliterates that code into pure Lean functions.
JavaScript truthiness of the token string (`undefined`, `null` and `""` are
falsy) is modelled by `tokenTruthy`.  The in-place mutation
`originalRequest._retry = true` (which, by aliasing, also updates
`error.config`) is modelled by rebuilding the error with the updated config.
Network effects (how many times `refreshSession` is invoked, whether
`window.location.href = '/login'` runs, how many retried sends are issued)
are recorded in an explicit `HandlerEffects` record.
-/

namespace Api

/-- HTTP headers as seen by the interceptors: the `Authorization` field,
which the wrapper reads and writes, plus all other header entries, which it
never touches. -/
structure Headers where
  authorization : Option String
  others : List (String × String)
deriving DecidableEq, Repr

/-- An axios request config.  `retry` models the `_retry` marker the response
interceptor stores on the config; `headers` is optional because the request
interceptor explicitly tests `config.headers` for presence. -/
structure RequestConfig where
  url : String
  method : String
  body : String
  retry : Bool
  headers : Option Headers
deriving DecidableEq, Repr

/-- An HTTP response: status code plus opaque payload. -/
structure Response where
  status : Nat
  data : String
deriving DecidableEq, Repr

/-- An axios error: the originating config, the response if one was received
(`none` models a network-level failure), and a message. -/
structure AxiosError where
  config : RequestConfig
  response : Option Response
  message : String
deriving DecidableEq, Repr

/-- JavaScript truthiness of an optional token string: `undefined`/`null`
(here `none`) and the empty string are falsy. -/
def tokenTruthy : Option String → Bool
  | none => false
  | some t => !t.isEmpty

/-- The request interceptor: reads the current session's access token and,
when the token is truthy and `config.headers` is present, sets
`config.headers.Authorization = "Bearer " ++ token`; otherwise the config
passes through unchanged. -/
def requestInterceptor (sessionToken : Option String) (config : RequestConfig) :
    RequestConfig :=
  if tokenTruthy sessionToken then
    match sessionToken, config.headers with
    | some token, some h =>
        { config with
          headers := some { h with authorization := some ("Bearer " ++ token) } }
    | _, _ => config
  else config

/-- The fulfilled-response interceptor `(response) => response`. -/
def responseOnFulfilled (response : Response) : Response := response

/-- Outcome of `supabase.auth.refreshSession()` as observed by the wrapper:
it resolves with no error, resolves with an error value, or throws. -/
inductive RefreshOutcome where
  | ok
  | errValue
  | thrown
deriving DecidableEq, Repr

/-- What the response-error interceptor returns: either
`Promise.reject(error)` with some error, or `api(originalRequest)`, i.e. a
single resend of the given request whose result becomes the caller's
result. -/
inductive HandlerResult where
  | reject (e : AxiosError)
  | resend (req : RequestConfig)
deriving DecidableEq, Repr

/-- Side effects of one run of the response-error interceptor: number of
`refreshSession` invocations, whether `window.location.href = '/login'`
ran, and number of retried sends issued. -/
structure HandlerEffects where
  refreshCalls : Nat
  redirectedToLogin : Bool
  retriedSends : Nat
deriving DecidableEq, Repr

/-- The response-error interceptor, transliterated from the source.
`refresh` is the outcome of `supabase.auth.refreshSession()` and
`tokenAfterRefresh` the access token returned by the subsequent
`supabase.auth.getSession()` (both external to the wrapper).  On a 401 whose
config has `_retry` unset, the flag is set (also visible on the rejected
error, by aliasing), refresh is attempted, and on success the original
request is resent once — with a fresh `Authorization` header when the new
token is truthy.  A truthy token with absent headers makes the JS assignment
`originalRequest.headers.Authorization = ...` throw; the `catch` block then
redirects to login and rejects with the original error, exactly as a failed
refresh does.  Every other error is rejected unchanged with no refresh. -/
def responseOnRejected (refresh : RefreshOutcome) (tokenAfterRefresh : Option String)
    (error : AxiosError) : HandlerResult × HandlerEffects :=
  if error.response.map Response.status = some 401 ∧ error.config.retry = false then
    let updated : RequestConfig := { error.config with retry := true }
    let errorAfterMark : AxiosError := { error with config := updated }
    match refresh with
    | .errValue => (.reject errorAfterMark, ⟨1, true, 0⟩)
    | .thrown => (.reject errorAfterMark, ⟨1, true, 0⟩)
    | .ok =>
        if tokenTruthy tokenAfterRefresh then
          match tokenAfterRefresh, updated.headers with
          | some token, some h =>
              (.resend { updated with
                  headers := some { h with authorization := some ("Bearer " ++ token) } },
                ⟨1, false, 1⟩)
          | _, _ => (.reject errorAfterMark, ⟨1, true, 0⟩)
        else
          (.resend updated, ⟨1, false, 1⟩)
  else
    (.reject error, ⟨0, false, 0⟩)

/-- What the caller of the wrapped request ultimately observes. -/
inductive Outcome where
  | fulfilled (r : Response)
  | rejected (e : AxiosError)
deriving DecidableEq, Repr

/-- Runs the error path of the wrapper to the caller's final outcome.
`resendOutcome` is an oracle giving the result of `api(originalRequest)` for
the (single) retried send; when the interceptor resends, the caller receives
exactly that result; when it rejects, the caller receives the rejection. -/
def runWrapper (refresh : RefreshOutcome) (tokenAfterRefresh : Option String)
    (resendOutcome : RequestConfig → Outcome) (error : AxiosError) :
    Outcome × HandlerEffects :=
  match responseOnRejected refresh tokenAfterRefresh error with
  | (.reject e, eff) => (.rejected e, eff)
  | (.resend req, eff) => (resendOutcome req, eff)

/-- Total number of `refreshSession` calls issued by the wrapper when the
given list of errored requests each pass through the response-error
interceptor.  The wrapper keeps no state shared between the runs (there is
no "refresh in progress" flag or cached promise in the source), so the runs
are independent and the counts add. -/
def totalRefreshCalls (refresh : RefreshOutcome) (tokenAfterRefresh : Option String)
    (errors : List AxiosError) : Nat :=
  (errors.map (fun e => (responseOnRejected refresh tokenAfterRefresh e).2.refreshCalls)).sum

/-- The config a `HandlerResult` carries: the rejected error's config, or the
resent request. -/
def HandlerResult.resultConfig : HandlerResult → RequestConfig
  | .reject e => e.config
  | .resend req => req

/-! Concrete sample data, used by witnesses and counterexamples. -/

/-- Sample headers of an outgoing request. -/
def sampleHeaders : Headers := ⟨none, [("Content-Type", "application/json")]⟩

/-- A sample not-yet-retried request. -/
def sampleRequest : RequestConfig :=
  ⟨"/properties", "GET", "", false, some sampleHeaders⟩

/-- A second, distinct sample request (for multi-request scenarios). -/
def sampleRequestB : RequestConfig :=
  ⟨"/tenants", "GET", "", false, some sampleHeaders⟩

/-- A 401 error on `sampleRequest`. -/
def sampleError401 : AxiosError :=
  ⟨sampleRequest, some ⟨401, ""⟩, "Request failed with status code 401"⟩

/-- A 401 error on `sampleRequestB`. -/
def sampleError401B : AxiosError :=
  ⟨sampleRequestB, some ⟨401, ""⟩, "Request failed with status code 401"⟩

/-- A 500 error on `sampleRequest`. -/
def sampleError500 : AxiosError :=
  ⟨sampleRequest, some ⟨500, "boom"⟩, "Request failed with status code 500"⟩

/-- A network-level failure (no response) on `sampleRequest`. -/
def sampleNetworkError : AxiosError :=
  ⟨sampleRequest, none, "Network Error"⟩

end Api

/-! Helper lemmas shared by several claims. -/

/-- On a 401 whose request is not yet retried, every branch of the error
interceptor marks the request retried and issues exactly one refresh call. -/
lemma unretried401_marks_and_refreshes (refresh : Api.RefreshOutcome)
    (tok : Option String) (e : Api.AxiosError)
    (h401 : e.response.map Api.Response.status = some 401)
    (hretry : e.config.retry = false) :
    (Api.responseOnRejected refresh tok e).1.resultConfig.retry = true ∧
    (Api.responseOnRejected refresh tok e).2.refreshCalls = 1 := by
  simp only [Api.responseOnRejected]
  rw [if_pos ⟨h401, hretry⟩]
  rcases refresh with _ | _ | _
  · dsimp only
    split
    · split <;> exact ⟨rfl, rfl⟩
    · exact ⟨rfl, rfl⟩
  · exact ⟨rfl, rfl⟩
  · exact ⟨rfl, rfl⟩

/-- Any error that is not an unretried 401 is rejected unchanged with no
effects. -/
lemma passthrough_of_not_unretried401 (refresh : Api.RefreshOutcome)
    (tok : Option String) (e : Api.AxiosError)
    (h : ¬ (e.response.map Api.Response.status = some 401 ∧ e.config.retry = false)) :
    Api.responseOnRejected refresh tok e = (.reject e, ⟨0, false, 0⟩) := by
  simp only [Api.responseOnRejected]
  rw [if_neg h]

/-- When the refresh fails (error result or exception), the interceptor
redirects to login and rejects with the original error, its config now
marked retried; no retried send is issued. -/
lemma reject_on_refresh_failure (refresh : Api.RefreshOutcome) (tok : Option String)
    (resendOutcome : Api.RequestConfig → Api.Outcome) (e : Api.AxiosError)
    (h401 : e.response.map Api.Response.status = some 401)
    (hretry : e.config.retry = false) (hfail : refresh ≠ .ok) :
    Api.runWrapper refresh tok resendOutcome e =
      (.rejected { e with config := { e.config with retry := true } }, ⟨1, true, 0⟩) := by
  simp only [Api.runWrapper, Api.responseOnRejected]
  rw [if_pos ⟨h401, hretry⟩]
  rcases refresh with _ | _ | _
  · exact absurd rfl hfail
  · rfl
  · rfl

/-! The claims. -/

/-- C1, counterexample: two concurrent in-flight requests that both receive a
401 in the same expiry window cause the wrapper to issue TWO refresh calls,
not one: the source calls `supabase.auth.refreshSession()` from each 401
handler with no shared refresh-in-progress state, so there is no coalescing
in the wrapper. -/
theorem two_concurrent_401s_issue_two_refreshes :
    Api.totalRefreshCalls .ok (some "t2") [Api.sampleError401, Api.sampleError401B] = 2 ∧
    Api.totalRefreshCalls .ok (some "t2") [Api.sampleError401, Api.sampleError401B] ≠ 1 :=
  ⟨rfl, by decide⟩

/-- C1, amended: each of the N concurrent requests that receives a 401 while
not yet retried issues its own refresh call, so N such requests issue
exactly N refresh calls; no request waits on another's refresh. -/
theorem each_unretried_401_issues_own_refresh (refresh : Api.RefreshOutcome)
    (tok : Option String) (errors : List Api.AxiosError)
    (h : ∀ e ∈ errors, e.response.map Api.Response.status = some 401 ∧
      e.config.retry = false) :
    Api.totalRefreshCalls refresh tok errors = errors.length := by
  induction errors with
  | nil => rfl
  | cons e es ih =>
      have he := h e (List.mem_cons_self e es)
      have hes : ∀ x ∈ es, x.response.map Api.Response.status = some 401 ∧
          x.config.retry = false := fun x hx => h x (List.mem_cons_of_mem e hx)
      have h1 := (unretried401_marks_and_refreshes refresh tok e he.1 he.2).2
      have h2 := ih hes
      simp only [Api.totalRefreshCalls, List.map_cons, List.sum_cons, List.length_cons]
      simp only [Api.totalRefreshCalls] at h2
      rw [h1, h2]
      omega

/-- Witness for C1 (amended): three concurrent 401s issue three refreshes. -/
theorem each_unretried_401_issues_own_refresh_witness :
    Api.totalRefreshCalls .ok (some "t2")
      [Api.sampleError401, Api.sampleError401B, Api.sampleError401] = 3 :=
  each_unretried_401_issues_own_refresh .ok (some "t2")
    [Api.sampleError401, Api.sampleError401B, Api.sampleError401] (by decide)

/-- C2: on a first 401 (retried flag false), the wrapper marks the request
retried, issues exactly one refresh call, and on refresh success (with a
truthy new token and headers present) attaches `Bearer <new token>` to the
original request, resends it exactly once, and returns that retried send's
outcome — success or failure — to the caller. -/
theorem retry_after_successful_refresh (t : String) (ht : t.isEmpty = false)
    (e : Api.AxiosError) (hdr : Api.Headers)
    (h401 : e.response.map Api.Response.status = some 401)
    (hretry : e.config.retry = false)
    (hheaders : e.config.headers = some hdr)
    (resendOutcome : Api.RequestConfig → Api.Outcome) :
    Api.runWrapper .ok (some t) resendOutcome e =
      (resendOutcome
        { e.config with
            retry := true,
            headers := some { hdr with authorization := some ("Bearer " ++ t) } },
        ⟨1, false, 1⟩) := by
  obtain ⟨⟨url, method, body, retry, headersOpt⟩, resp, msg⟩ := e
  dsimp only at h401 hretry hheaders
  subst hretry
  subst hheaders
  rcases resp with _ | ⟨status, dat⟩
  · exact absurd h401 (by simp)
  · have hs : status = 401 := by simpa using h401
    subst hs
    simp [Api.runWrapper, Api.responseOnRejected, Api.tokenTruthy, ht]

/-- Witness for C2: a concrete 401-refresh-retry round trip whose retried
send succeeds with a 200. -/
theorem retry_after_successful_refresh_witness :
    Api.runWrapper .ok (some "t2") (fun _ => .fulfilled ⟨200, "ok"⟩)
      Api.sampleError401 =
      (.fulfilled ⟨200, "ok"⟩, ⟨1, false, 1⟩) :=
  retry_after_successful_refresh "t2" rfl Api.sampleError401 Api.sampleHeaders
    rfl rfl rfl (fun _ => .fulfilled ⟨200, "ok"⟩)

/-- C3, counterexample: when the refresh fails, the caller does NOT receive a
reclassified `SessionExpired` condition — the source runs
`window.location.href = '/login'` and then `Promise.reject(error)` with the
ORIGINAL error, so the caller receives the original generic HTTP 401 error
(same response and message, only the retried flag now set).  The claim's
"no retried send" half does hold (`retriedSends = 0`). -/
theorem refresh_failure_rejects_original_401 :
    (Api.runWrapper .errValue none (fun _ => .fulfilled ⟨200, "ok"⟩)
        Api.sampleError401).1 =
      .rejected ⟨{ Api.sampleRequest with retry := true }, some ⟨401, ""⟩,
        "Request failed with status code 401"⟩ ∧
    (Api.runWrapper .errValue none (fun _ => .fulfilled ⟨200, "ok"⟩)
        Api.sampleError401).2 = ⟨1, true, 0⟩ :=
  ⟨rfl, rfl⟩

/-- C3, amended: if the refresh fails (error result or exception), no retried
send is attempted and the wrapper redirects the browser to the login page;
the caller receives the original 401 rejection unchanged (same response and
message, retried flag set) rather than a distinct reclassified error. -/
theorem refresh_failure_redirects_and_rejects_original
    (refresh : Api.RefreshOutcome) (tok : Option String)
    (resendOutcome : Api.RequestConfig → Api.Outcome) (e : Api.AxiosError)
    (h401 : e.response.map Api.Response.status = some 401)
    (hretry : e.config.retry = false) (hfail : refresh ≠ .ok) :
    Api.runWrapper refresh tok resendOutcome e =
      (.rejected { e with config := { e.config with retry := true } },
        ⟨1, true, 0⟩) :=
  reject_on_refresh_failure refresh tok resendOutcome e h401 hretry hfail

/-- Witness for C3 (amended): a concrete failed refresh on a first 401. -/
theorem refresh_failure_redirects_and_rejects_original_witness :
    Api.runWrapper .thrown none (fun _ => .fulfilled ⟨200, "ok"⟩)
      Api.sampleError401B =
      (.rejected ⟨{ Api.sampleRequestB with retry := true }, some ⟨401, ""⟩,
        "Request failed with status code 401"⟩, ⟨1, true, 0⟩) :=
  refresh_failure_redirects_and_rejects_original .thrown none
    (fun _ => .fulfilled ⟨200, "ok"⟩) Api.sampleError401B rfl rfl (by decide)

/-- C4: a 401 on a request already marked retried triggers no refresh call
and is propagated to the caller as an ordinary rejected error, unchanged
(the condition the spec names `AuthenticationFailed`); no second refresh or
resend happens. -/
theorem retried_401_propagates_without_refresh
    (refresh : Api.RefreshOutcome) (tok : Option String)
    (resendOutcome : Api.RequestConfig → Api.Outcome) (e : Api.AxiosError)
    (hretry : e.config.retry = true) :
    Api.runWrapper refresh tok resendOutcome e = (.rejected e, ⟨0, false, 0⟩) := by
  have h := passthrough_of_not_unretried401 refresh tok e
    (by rintro ⟨_, hfalse⟩; rw [hretry] at hfalse; exact absurd hfalse (by decide))
  simp only [Api.runWrapper, h]

/-- Witness for C4: a concrete already-retried 401 passes through. -/
theorem retried_401_propagates_without_refresh_witness :
    Api.runWrapper .ok (some "t2") (fun _ => .fulfilled ⟨200, "ok"⟩)
      ⟨{ Api.sampleRequest with retry := true }, some ⟨401, ""⟩, "401 again"⟩ =
      (.rejected ⟨{ Api.sampleRequest with retry := true }, some ⟨401, ""⟩,
        "401 again"⟩, ⟨0, false, 0⟩) :=
  retried_401_propagates_without_refresh .ok (some "t2")
    (fun _ => .fulfilled ⟨200, "ok"⟩)
    ⟨{ Api.sampleRequest with retry := true }, some ⟨401, ""⟩, "401 again"⟩ rfl

/-- C5: fulfilled responses pass through the identity interceptor unchanged,
and every error whose response status is not 401 — including network-level
failures, whose `response` is `none` and hence whose mapped status is not
`some 401` — is rejected unchanged with no refresh call, no redirect and no
resend. -/
theorem non401_and_network_errors_pass_through :
    (∀ r : Api.Response, Api.responseOnFulfilled r = r) ∧
    ∀ (refresh : Api.RefreshOutcome) (tok : Option String)
      (resendOutcome : Api.RequestConfig → Api.Outcome) (e : Api.AxiosError),
      e.response.map Api.Response.status ≠ some 401 →
      Api.runWrapper refresh tok resendOutcome e =
        (.rejected e, ⟨0, false, 0⟩) := by
  refine ⟨fun r => rfl, fun refresh tok resendOutcome e h => ?_⟩
  have hp := passthrough_of_not_unretried401 refresh tok e (fun hc => h hc.1)
  simp only [Api.runWrapper, hp]

/-- Witness for C5: a 500 response, a network failure, and a fulfilled 200
all pass through unchanged. -/
theorem non401_and_network_errors_pass_through_witness :
    Api.runWrapper .ok none (fun _ => .fulfilled ⟨200, "ok"⟩)
      Api.sampleError500 = (.rejected Api.sampleError500, ⟨0, false, 0⟩) ∧
    Api.runWrapper .ok none (fun _ => .fulfilled ⟨200, "ok"⟩)
      Api.sampleNetworkError = (.rejected Api.sampleNetworkError, ⟨0, false, 0⟩) ∧
    Api.responseOnFulfilled ⟨200, "payload"⟩ = ⟨200, "payload"⟩ :=
  ⟨non401_and_network_errors_pass_through.2 .ok none
      (fun _ => .fulfilled ⟨200, "ok"⟩) Api.sampleError500 (by decide),
   non401_and_network_errors_pass_through.2 .ok none
      (fun _ => .fulfilled ⟨200, "ok"⟩) Api.sampleNetworkError (by decide),
   non401_and_network_errors_pass_through.1 ⟨200, "payload"⟩⟩

/-- C6: for an outgoing request dispatched while a session with a (truthy)
access token is available and the config has headers, the request
interceptor sets the `Authorization` header to `Bearer <access_token>`
before dispatch, leaving every other field untouched. -/
theorem request_interceptor_attaches_bearer_token (t : String)
    (ht : t.isEmpty = false) (config : Api.RequestConfig) (hdr : Api.Headers)
    (hheaders : config.headers = some hdr) :
    Api.requestInterceptor (some t) config =
      { config with
          headers := some { hdr with authorization := some ("Bearer " ++ t) } } := by
  obtain ⟨url, method, body, retry, headersOpt⟩ := config
  dsimp only at hheaders
  subst hheaders
  simp [Api.requestInterceptor, Api.tokenTruthy, ht]

/-- Witness for C6: a concrete token is attached as a bearer header. -/
theorem request_interceptor_attaches_bearer_token_witness :
    Api.requestInterceptor (some "tok123") Api.sampleRequest =
      { Api.sampleRequest with
          headers := some ⟨some "Bearer tok123",
            [("Content-Type", "application/json")]⟩ } :=
  request_interceptor_attaches_bearer_token "tok123" rfl Api.sampleRequest
    Api.sampleHeaders rfl

/-- C7, counterexample: the response interceptor has no sign-out awareness —
after `signOut()` has invalidated the session (so `refreshSession` fails and
`getSession` yields no token), a 401 on a not-yet-retried request STILL
triggers a refresh call (`refreshCalls = 1`, not the claimed `0`) and takes
the redirect-to-login path rather than plain error propagation. -/
theorem post_signout_401_still_refreshes :
    (Api.responseOnRejected .errValue none Api.sampleError401).2.refreshCalls = 1 ∧
    (Api.responseOnRejected .errValue none Api.sampleError401).2.refreshCalls ≠ 0 ∧
    (Api.responseOnRejected .errValue none Api.sampleError401).2.redirectedToLogin
      = true :=
  ⟨rfl, by decide, rfl⟩

/-- C7, amended: after sign-out, a 401 on a not-yet-retried request still
triggers exactly one refresh attempt; the refresh fails against the
invalidated session, so the wrapper redirects to the login page and rejects
with the original 401 error (retried flag set), with no retried send.  Only
requests already marked retried propagate without any refresh. -/
theorem post_signout_401_refresh_fails_and_rejects
    (tok : Option String) (resendOutcome : Api.RequestConfig → Api.Outcome)
    (e : Api.AxiosError)
    (h401 : e.response.map Api.Response.status = some 401)
    (hretry : e.config.retry = false) :
    (Api.responseOnRejected .errValue tok e).2.refreshCalls = 1 ∧
    Api.runWrapper .errValue tok resendOutcome e =
      (.rejected { e with config := { e.config with retry := true } },
        ⟨1, true, 0⟩) :=
  ⟨(unretried401_marks_and_refreshes .errValue tok e h401 hretry).2,
   reject_on_refresh_failure .errValue tok resendOutcome e h401 hretry (by decide)⟩

/-- Witness for C7 (amended): a concrete post-sign-out 401. -/
theorem post_signout_401_refresh_fails_and_rejects_witness :
    (Api.responseOnRejected .errValue none Api.sampleError401B).2.refreshCalls = 1 ∧
    Api.runWrapper .errValue none (fun _ => .fulfilled ⟨200, "ok"⟩)
      Api.sampleError401B =
      (.rejected ⟨{ Api.sampleRequestB with retry := true }, some ⟨401, ""⟩,
        "Request failed with status code 401"⟩, ⟨1, true, 0⟩) :=
  post_signout_401_refresh_fails_and_rejects none
    (fun _ => .fulfilled ⟨200, "ok"⟩) Api.sampleError401B rfl rfl

/-- C8, counterexample: the retried flag is mutated even when no
refresh-and-retry cycle completes — on a first 401 whose refresh then
FAILS, the flag still flips false→true while zero retried sends occur, so
the flag's mutation is tied to entering the 401 branch, not to a
refresh-and-retry cycle occurring. -/
theorem retry_flag_set_without_retry_send :
    Api.sampleError401.config.retry = false ∧
    (Api.responseOnRejected .errValue none
      Api.sampleError401).1.resultConfig.retry = true ∧
    (Api.responseOnRejected .errValue none Api.sampleError401).2.retriedSends = 0 :=
  ⟨rfl, rfl, rfl⟩

/-- C8, amended: the retried flag lives on the request object itself (each
request carries its own), is mutated at most once and only from false to
true: the outgoing flag equals the incoming flag OR-ed with "the response
was a 401", and the mutation happens exactly when a refresh is attempted
(the unretried-401 branch) — even if the refresh then fails and no retried
send follows. -/
theorem retry_flag_monotone_and_set_iff_refresh
    (refresh : Api.RefreshOutcome) (tok : Option String) (e : Api.AxiosError) :
    (Api.responseOnRejected refresh tok e).1.resultConfig.retry =
      (e.config.retry || decide (e.response.map Api.Response.status = some 401)) ∧
    ((Api.responseOnRejected refresh tok e).2.refreshCalls = 1 ↔
      (e.response.map Api.Response.status = some 401 ∧ e.config.retry = false)) := by
  by_cases h : e.response.map Api.Response.status = some 401 ∧ e.config.retry = false
  · obtain ⟨hA1, hA2⟩ := unretried401_marks_and_refreshes refresh tok e h.1 h.2
    refine ⟨?_, iff_of_true hA2 h⟩
    rw [hA1, h.2]
    simp [h.1]
  · rw [passthrough_of_not_unretried401 refresh tok e h]
    refine ⟨?_, iff_of_false (by simp) h⟩
    simp only [Api.HandlerResult.resultConfig]
    rcases hr : e.config.retry
    · have hne : e.response.map Api.Response.status ≠ some 401 := fun hc => h ⟨hc, hr⟩
      simp [hr, hne]
    · simp [hr]

/-- C9: when no session (hence no access token) is available at dispatch
time, the request interceptor returns the config unchanged — the request
goes out without an `Authorization` header, and no error is raised (the
interceptor is a total function). -/
theorem request_interceptor_no_session_passthrough (config : Api.RequestConfig) :
    Api.requestInterceptor none config = config := rfl

/-- C10: on a first 401, if the refresh succeeds but the freshly fetched
session carries no (truthy) access token, the wrapper still resends the
original request exactly once with its headers — including any previous
`Authorization` — unchanged (only the retried flag is set), and the caller
receives that retry's outcome rather than any session-expired handling
(no redirect). -/
theorem refresh_success_without_token_resends_unchanged
    (tok : Option String) (htok : Api.tokenTruthy tok = false)
    (resendOutcome : Api.RequestConfig → Api.Outcome) (e : Api.AxiosError)
    (h401 : e.response.map Api.Response.status = some 401)
    (hretry : e.config.retry = false) :
    Api.runWrapper .ok tok resendOutcome e =
      (resendOutcome { e.config with retry := true }, ⟨1, false, 1⟩) := by
  obtain ⟨⟨url, method, body, retry, headersOpt⟩, resp, msg⟩ := e
  dsimp only at h401 hretry
  subst hretry
  rcases resp with _ | ⟨status, dat⟩
  · exact absurd h401 (by simp)
  · have hs : status = 401 := by simpa using h401
    subst hs
    simp [Api.runWrapper, Api.responseOnRejected, htok]

/-- Witness for C10: the retried send goes out with the original request's
url (headers untouched) and its 204 outcome is returned to the caller. -/
theorem refresh_success_without_token_resends_unchanged_witness :
    Api.runWrapper .ok none (fun r => .fulfilled ⟨204, r.url⟩)
      Api.sampleError401 =
      (.fulfilled ⟨204, "/properties"⟩, ⟨1, false, 1⟩) :=
  refresh_success_without_token_resends_unchanged none rfl
    (fun r => .fulfilled ⟨204, r.url⟩) Api.sampleError401 rfl rfl
